import Mathlib

/-!
Verification of the RFC 7807 Problem Details modules of this repository:
`fastapi/responses_rfc7807.py` (pydantic models, the JSON-Pointer encoder
`_loc_to_json_pointer`, and `build_from_pydantic_error`) and
`fastapi/configure_problem_details.py` (rollout configuration,
`LegacyClientDetector.detect`, `ProblemDetailsConfigurationManager`).

The Python code is shallowly embedded: pydantic model construction becomes an
explicit validation pipeline returning `Except String`, Python `str` values
become `String`, and Python values of unknown type become the `PyValue` sum
type.  Python string primitives (`str.lower`, `str.strip`, `len`, `in`) are
re-implemented over `List Char` so that every definition evaluates inside the
kernel.
-/

/-! ## Python string primitives -/

/-- ASCII lower-casing of one character, as `str.lower` does per character. -/
def charLower (c : Char) : Char :=
  if 'A' ≤ c ∧ c ≤ 'Z' then Char.ofNat (c.toNat + 32) else c

/-- Python `s.lower()` (ASCII; every pattern in the source is ASCII). -/
def strLower (s : String) : String := String.mk (s.toList.map charLower)

/-- Whitespace stripped by Python `str.strip()` (the characters that occur in
this code base's data). -/
def isSpaceCh (c : Char) : Bool := c == ' ' || c == '\t' || c == '\n' || c == '\r'

/-- Python `s.strip()`. -/
def strTrim (s : String) : String :=
  String.mk (((s.toList.dropWhile isSpaceCh).reverse.dropWhile isSpaceCh).reverse)

/-- Python `len(s)` (number of code points). -/
def strLen (s : String) : Nat := s.toList.length

/-- `leadsWith hay pat` is true when `pat` is an initial run of `hay`. -/
def leadsWith : List Char → List Char → Bool
  | _, [] => true
  | [], _ :: _ => false
  | h :: hs, p :: ps => h == p && leadsWith hs ps

/-- `hasSub hay pat` is true when `pat` occurs contiguously in `hay`. -/
def hasSub : List Char → List Char → Bool
  | [], pat => pat.isEmpty
  | c :: t, pat => leadsWith (c :: t) pat || hasSub t pat

/-- Python `pat in hay` on strings. -/
def strContains (hay pat : String) : Bool := hasSub hay.toList pat.toList

/-- Python `s.startswith(p)`. -/
def strStartsWith (s p : String) : Bool := leadsWith s.toList p.toList

/-- Truthiness of an `Optional[str]`: `None` and `""` are falsy. -/
def pyTruthy : Option String → Bool
  | none => false
  | some s => !(s.toList.isEmpty)

/-- The string an `Optional[str]` contributes to an f-string: `None` prints
as `"None"`. -/
def pyOptStr : Option String → String
  | none => "None"
  | some s => s

/-! ## Python values of unknown type

`PyValue` models the values that can sit in a pydantic error dict: `None`,
`str`, `int`, `bool` (a subclass of `int` in Python) and anything else,
carried with its `str()` rendering. -/

inductive PyValue where
  | pynone : PyValue
  | pystr (s : String) : PyValue
  | pyint (n : Int) : PyValue
  | pybool (b : Bool) : PyValue
  | pyother (repr : String) : PyValue
deriving DecidableEq, Repr

/-- Python `str(v)`. -/
def pyToStr : PyValue → String
  | .pynone => "None"
  | .pystr s => s
  | .pyint n => toString n
  | .pybool b => if b then "True" else "False"
  | .pyother r => r

/-- Python `isinstance(v, (int, str))`; `bool` is a subclass of `int`. -/
def isIntOrStr : PyValue → Bool
  | .pyint _ => true
  | .pybool _ => true
  | .pystr _ => true
  | _ => false

/-! ## `_loc_to_json_pointer` (responses_rfc7807.py, lines 1036-1082) -/

/-- One segment of a pydantic `loc` tuple: a string key or an integer index. -/
inductive LocSeg where
  | s (v : String) : LocSeg
  | i (n : Int) : LocSeg
deriving DecidableEq, Repr

/-- `str(segment)` on a `loc` segment. -/
def pySegStr : LocSeg → String
  | .s v => v
  | .i n => toString n

/-- `segment_str.replace("~", "~0")`. -/
def replaceTilde (s : String) : String :=
  String.mk (s.toList.flatMap fun c => if c = '~' then ['~', '0'] else [c])

/-- `segment_str.replace("/", "~1")`. -/
def replaceSlash (s : String) : String :=
  String.mk (s.toList.flatMap fun c => if c = '/' then ['~', '1'] else [c])

/-- RFC 6901 escaping of one segment exactly as the source does it:
stringify, replace `~` first, then `/`. -/
def escapeSeg (seg : LocSeg) : String := replaceSlash (replaceTilde (pySegStr seg))

/-- `_loc_to_json_pointer`: empty tuple gives `""`; otherwise each segment is
escaped and the segments are joined with `/` behind a leading `/`. -/
def locToJsonPointer (loc : List LocSeg) : String :=
  if loc.isEmpty then ""
  else "/" ++ String.intercalate "/" (loc.map escapeSeg)

/-- C2: the JSON Pointer encoder maps `()` to `""`, escapes `~` before `/`
within every stringified segment of a non-empty tuple, joins with `/` and
prefixes a single `/`; in particular
`encode(("a~b","c/d")) = "/a~0b/c~1d"`, `encode(()) = ""`,
`encode(("x",)) = "/x"`, and `encode(("~/",)) = "/~0~1"` (order of the two
replacements is observable on a segment holding both characters). -/
theorem locToJsonPointer_spec :
    locToJsonPointer [] = "" ∧
    (∀ loc : List LocSeg, loc ≠ [] →
      locToJsonPointer loc =
        "/" ++ String.intercalate "/"
          (loc.map fun seg => replaceSlash (replaceTilde (pySegStr seg)))) ∧
    locToJsonPointer [.s "a~b", .s "c/d"] = "/a~0b/c~1d" ∧
    locToJsonPointer [.s "x"] = "/x" ∧
    locToJsonPointer [.s "~/"] = "/~0~1" := by
  refine ⟨by decide, ?_, by decide, by decide, by decide⟩
  intro loc h
  have hne : loc.isEmpty = false := by
    cases loc with
    | nil => exact absurd rfl h
    | cons a l => rfl
  simp only [locToJsonPointer, hne, Bool.false_eq_true, if_false]
  rfl

/-- Witness for C2: the universally quantified clause applied at the concrete
one-segment tuple `("q",)`, its non-emptiness hypothesis discharged there. -/
theorem locToJsonPointer_spec_witness :
    locToJsonPointer [.s "q"] =
      "/" ++ String.intercalate "/"
        ([LocSeg.s "q"].map fun seg => replaceSlash (replaceTilde (pySegStr seg))) :=
  locToJsonPointer_spec.2.1 [.s "q"] (by decide)

/-! ## Pydantic models (responses_rfc7807.py)

Model construction is embedded as an explicit validation pipeline returning
`Except String`: the `.ok` payload is the constructed document (with the
transformations the validators perform), `.error` stands for a raised
`pydantic.ValidationError`.  Error messages are collapsed to one string; the
claims only distinguish success from failure. -/

/-- Bounded-length check for a pydantic `Field(min_length=lo, max_length=hi)`
string constraint. -/
def chkLen (lo : Nat) (s : String) (hi : Nat) : Bool :=
  decide (lo ≤ strLen s) && decide (strLen s ≤ hi)

/-- One field error of a `ValidationProblemDetails` document
(`ValidationErrorDetail`, lines 386-511).  `field`, `message`, `error_type`
are stored after the validators ran; `value` and `constraint` are optional. -/
structure ValidationErrorDetail where
  field : String
  message : String
  error_type : String
  value : Option PyValue
  constraint : Option String
deriving DecidableEq, Repr

/-- Construction of a `ValidationErrorDetail`:
`field`: str, `min_length=1`, `max_length=256`, then `validate_non_empty`
(rejects blank, stores the stripped value); `message`: str, 1..512;
`error_type`: must be a `str` (pydantic does not coerce `None` or `int`),
1..128, `validate_non_empty`; `value`: unvalidated; `constraint`:
`max_length=256` when present. -/
def ValidationErrorDetail.make (field message : String) (error_type : PyValue)
    (value : Option PyValue) (constraint : Option String) :
    Except String ValidationErrorDetail :=
  match error_type with
  | .pystr t =>
    if chkLen 1 field 256 && !(strTrim field == "") &&
       chkLen 1 message 512 &&
       chkLen 1 t 128 && !(strTrim t == "") &&
       constraint.all (fun c => decide (strLen c ≤ 256))
    then .ok ⟨strTrim field, message, strTrim t, value, constraint⟩
    else .error "validation error"
  | _ => .error "validation error"

/-- The URI-prefix test of `validate_problem_type_uri` (lines 263-281). -/
def validTypeUriPrefix (v : String) : Bool :=
  strStartsWith v "http://" || strStartsWith v "https://" ||
  strStartsWith v "urn:" || strStartsWith v "#" || strStartsWith v "/"

/-- A character of the URI-scheme class `[a-zA-Z0-9+.-]`. -/
def isSchemeCh (c : Char) : Bool :=
  (decide ('a' ≤ c) && decide (c ≤ 'z')) ||
  (decide ('A' ≤ c) && decide (c ≤ 'Z')) ||
  (decide ('0' ≤ c) && decide (c ≤ '9')) ||
  c == '+' || c == '.' || c == '-'

/-- Scan for `[a-zA-Z0-9+.-]*:` after the first character. -/
def schemeTail : List Char → Bool
  | [] => false
  | c :: cs => if c = ':' then true else if isSchemeCh c then schemeTail cs else false

/-- The `pattern` constraint of `problem_type`:
`^[a-zA-Z][a-zA-Z0-9+.-]*:|^#|^/`. -/
def matchesTypePattern (s : String) : Bool :=
  strStartsWith s "#" || strStartsWith s "/" ||
  (match s.toList with
   | [] => false
   | c :: cs =>
     ((decide ('a' ≤ c) && decide (c ≤ 'z')) || (decide ('A' ≤ c) && decide (c ≤ 'Z')))
       && schemeTail cs)

/-- The RFC 7807 validation-problem document (`ValidationProblemDetails`,
lines 519-627, extending `ProblemDetails`, lines 76-308).  `instance_` stands
for the Python field `instance` (a Lean keyword); `timestamp` is an abstract
tick count. -/
structure ValidationProblemDetails where
  problem_type : String
  title : String
  status : Int
  detail : String
  instance_ : Option String
  error_code : Option String
  timestamp : Option Nat
  request_id : Option String
  errors : List ValidationErrorDetail
  error_count : Int
  error_source : Option String
deriving DecidableEq, Repr

/-- `set_timestamp_if_needed` (lines 302-308): fill `timestamp` with the
current time when it is absent but `request_id` is tracked. -/
def tsFix (timestamp : Option Nat) (request_id : Option String) (now : Nat) : Option Nat :=
  match timestamp, request_id with
  | none, some _ => some now
  | t, _ => t

/-- `validate_error_count_matches_errors` (lines 614-619): force
`error_count` to the length of `errors` whenever they disagree. -/
def cntFix (error_count : Int) (n : Nat) : Int :=
  if error_count ≠ (n : Int) then (n : Int) else error_count

/-- All field-level validation of a `ValidationProblemDetails` construction:
`problem_type` after the before-validator strip must carry a URI prefix, be
1..2048 long and match the `pattern` constraint; `title` 1..255 and non-blank;
`status` within the subclass bounds 400..499 and the inherited validator's
100..599; `detail` 1..1024 and non-blank; `instance` at most 2048 when given;
`errors` non-empty twice over (`ensure_non_empty_errors` and `min_length=1`);
`error_count` at least 1 (`ge=1`). -/
def vpdChecks (problem_type title : String) (status : Int) (detail : String)
    (instance_ : Option String) (errors : List ValidationErrorDetail)
    (error_count : Int) : Bool :=
  validTypeUriPrefix (strTrim problem_type) &&
  chkLen 1 (strTrim problem_type) 2048 &&
  matchesTypePattern (strTrim problem_type) &&
  chkLen 1 title 255 && !(strTrim title == "") &&
  decide (400 ≤ status) && decide (status ≤ 499) &&
  decide (100 ≤ status) && decide (status ≤ 599) &&
  chkLen 1 detail 1024 && !(strTrim detail == "") &&
  instance_.all (fun i => decide (strLen i ≤ 2048)) &&
  !errors.isEmpty && decide (1 ≤ errors.length) &&
  decide (1 ≤ error_count)

/-- Construction of a `ValidationProblemDetails`: run all field validation,
then the after-validators (`set_timestamp_if_needed` and
`validate_error_count_matches_errors`). -/
def ValidationProblemDetails.make (problem_type title : String) (status : Int)
    (detail : String) (instance_ : Option String) (error_code : Option String)
    (timestamp : Option Nat) (request_id : Option String)
    (errors : List ValidationErrorDetail) (error_count : Int)
    (error_source : Option String) (now : Nat) :
    Except String ValidationProblemDetails :=
  if vpdChecks problem_type title status detail instance_ errors error_count
  then .ok ⟨strTrim problem_type, strTrim title, status, strTrim detail,
            instance_, error_code, tsFix timestamp request_id now, request_id,
            errors, cntFix error_count errors.length, error_source⟩
  else .error "validation error"

/-! ## `build_from_pydantic_error` (lines 1085-1175) -/

/-- The allow-list of context keys surfaced in a constraint summary
(line 1143). -/
def allowedConstraintKeys : List String :=
  ["min_length", "max_length", "ge", "le", "pattern"]

/-- Dictionary lookup in an error's `ctx` mapping. -/
def ctxLookup (ctx : List (String × PyValue)) (k : String) : Option PyValue :=
  (ctx.find? (fun p => p.1 == k)).map (fun p => p.2)

/-- The constraint summary loop (lines 1140-1150): for each allow-listed key
present in `ctx`, include `"key=value"` when the value is an `int` or `str`
whose `str()` form is shorter than 100 characters; join with `", "`; `None`
when nothing survives or `ctx` is falsy. -/
def constraintOf (ctx : List (String × PyValue)) : Option String :=
  if ctx.isEmpty then none
  else
    let parts := allowedConstraintKeys.filterMap fun k =>
      match ctxLookup ctx k with
      | some v =>
        if isIntOrStr v && decide (strLen (pyToStr v) < 100)
        then some (k ++ "=" ++ pyToStr v) else none
      | none => none
    if parts.isEmpty then none else some (String.intercalate ", " parts)

/-- One entry of the pydantic `error_list`: each dict key may be absent
(`none`) or present with a value (`some _`), so `e.get(key, default)`
semantics are expressible, including present-but-`None`. -/
structure RawError where
  loc : Option (List LocSeg)
  msg : Option PyValue
  ty : Option PyValue
  ctx : Option (List (String × PyValue))
deriving DecidableEq, Repr

/-- The loop body of `build_from_pydantic_error` (lines 1125-1160): defaults
for absent keys, JSON-Pointer field path, stringified message, constraint
summary, `value` never passed. -/
def convertOne (e : RawError) : Except String ValidationErrorDetail :=
  ValidationErrorDetail.make
    (locToJsonPointer (e.loc.getD []))
    (pyToStr (e.msg.getD (.pystr "Unknown error")))
    (e.ty.getD (.pystr "validation.error"))
    none
    (constraintOf (e.ctx.getD []))

/-- The whole conversion loop; a raised validation error propagates out of
`build_from_pydantic_error` at the first bad record, as in Python. -/
def convertAll : List RawError → Except String (List ValidationErrorDetail)
  | [] => .ok []
  | e :: rest =>
    match convertOne e with
    | .error s => .error s
    | .ok d =>
      match convertAll rest with
      | .error s => .error s
      | .ok ds => .ok (d :: ds)

/-- The default `problem_type` argument of `build_from_pydantic_error`. -/
def defaultProblemType : String := "https://api.example.com/errors/validation"

/-- `build_from_pydantic_error` itself: convert every record, generate the
detail summary with singular/plural, construct the document. -/
def build_from_pydantic_error (error_list : List RawError)
    (instance_ : Option String) (problem_type : String) :
    Except String ValidationProblemDetails :=
  match convertAll error_list with
  | .error s => .error s
  | .ok validation_errors =>
    ValidationProblemDetails.make problem_type "Validation Failed" 400
      (toString validation_errors.length ++ " validation error" ++
        (if validation_errors.length ≠ 1 then "s" else "") ++ " occurred")
      instance_ none none none validation_errors (validation_errors.length : Int)
      none 0

/-- Success test on an embedded pydantic construction. -/
def exceptIsOk {ε α : Type} : Except ε α → Bool
  | .ok _ => true
  | .error _ => false

/-- The `.ok` payload of an embedded construction, with a fallback. -/
def exceptGetD {ε α : Type} : Except ε α → α → α
  | .ok a, _ => a
  | .error _, d => d

/-- A placeholder document used only as `exceptGetD` fallback. -/
def blankDoc : ValidationProblemDetails :=
  ⟨"", "", 0, "", none, none, none, none, [], 0, none⟩

/-- A placeholder field error used only as a `getD` fallback. -/
def blankErr : ValidationErrorDetail := ⟨"", "", "", none, none⟩

/-! ## Helper lemmas about the pydantic pipeline -/

/-- The after-validator always lands `error_count` on the length of
`errors`. -/
theorem cntFix_eq (c : Int) (n : Nat) : cntFix c n = (n : Int) := by
  unfold cntFix
  split
  · rfl
  · omega

/-- A successful `ValidationProblemDetails.make` keeps the `errors` argument
and forces `error_count` to its length. -/
theorem vpd_make_ok {pt ti st dt inst ec ts rid errs cnt src now d}
    (h : ValidationProblemDetails.make pt ti st dt inst ec ts rid errs cnt src now
         = .ok d) :
    d.errors = errs ∧ d.error_count = (errs.length : Int) := by
  unfold ValidationProblemDetails.make at h
  split at h
  · cases h
    exact ⟨rfl, cntFix_eq cnt errs.length⟩
  · cases h

/-- A successful `ValidationErrorDetail.make` stores the `value` argument
unchanged. -/
theorem ved_make_value {f m ety v c d}
    (h : ValidationErrorDetail.make f m ety v c = .ok d) : d.value = v := by
  cases ety with
  | pystr t =>
    simp only [ValidationErrorDetail.make] at h
    split at h
    · cases h
      rfl
    · cases h
  | pynone => simp only [ValidationErrorDetail.make] at h; cases h
  | pyint n => simp only [ValidationErrorDetail.make] at h; cases h
  | pybool b => simp only [ValidationErrorDetail.make] at h; cases h
  | pyother r => simp only [ValidationErrorDetail.make] at h; cases h

/-- A field error produced by the conversion loop carries `value = None`. -/
theorem convertOne_value {e d} (h : convertOne e = .ok d) : d.value = none :=
  ved_make_value h

/-- Every field error produced by the conversion loop carries
`value = None`. -/
theorem convertAll_values :
    ∀ (l : List RawError) (ds : List ValidationErrorDetail),
      convertAll l = .ok ds → ∀ d ∈ ds, d.value = none := by
  intro l
  induction l with
  | nil =>
    intro ds h d hd
    cases h
    cases hd
  | cons e rest ih =>
    intro ds h d hd
    unfold convertAll at h
    cases h1 : convertOne e with
    | error s => rw [h1] at h; cases h
    | ok d0 =>
      rw [h1] at h
      cases h2 : convertAll rest with
      | error s => rw [h2] at h; cases h
      | ok ds0 =>
        rw [h2] at h
        cases h
        cases hd with
        | head => exact convertOne_value h1
        | tail _ hmem => exact ih ds0 h2 d hmem

/-! ## Claim C1 -/

/-- C1 (code bug): `build_from_pydantic_error([])` does not return a
document — the computed detail would read "0 validation errors occurred",
but `ValidationProblemDetails` rejects an empty `errors` list
(`ensure_non_empty_errors`, `min_length=1`) and `error_count = 0` (`ge=1`),
so the call raises.  The repository's own tests
(`test_build_from_pydantic_error.py::test_empty_error_list`,
`test_problem_details_mapping.py::test_empty_error_list`) expect success with
`error_count == 0`, which this evaluation refutes. -/
theorem build_empty_list_raises :
    exceptIsOk (build_from_pydantic_error [] none defaultProblemType) = false := by
  decide

/-! ## Claim C3 -/

/-- C3: every `ValidationProblemDetails` that is actually constructed —
whether directly with an arbitrary (possibly mismatching) caller-supplied
`error_count` or through `build_from_pydantic_error` — satisfies
`error_count == len(errors)`. -/
theorem error_count_matches_errors :
    (∀ (pt ti : String) (st : Int) (dt : String) (inst ec : Option String)
       (ts : Option Nat) (rid : Option String)
       (errs : List ValidationErrorDetail) (cnt : Int) (src : Option String)
       (now : Nat) (d : ValidationProblemDetails),
       ValidationProblemDetails.make pt ti st dt inst ec ts rid errs cnt src now
         = .ok d →
       d.error_count = (d.errors.length : Int)) ∧
    (∀ (F : List RawError) (inst : Option String) (pt : String)
       (d : ValidationProblemDetails),
       build_from_pydantic_error F inst pt = .ok d →
       d.error_count = (d.errors.length : Int)) := by
  constructor
  · intro pt ti st dt inst ec ts rid errs cnt src now d h
    obtain ⟨he, hc⟩ := vpd_make_ok h
    rw [hc, he]
  · intro F inst pt d h
    unfold build_from_pydantic_error at h
    cases hC : convertAll F with
    | error s => rw [hC] at h; cases h
    | ok vs =>
      rw [hC] at h
      obtain ⟨he, hc⟩ := vpd_make_ok h
      rw [hc, he]

/-- A sample failure record used to exercise the builder concretely. -/
def sampleRaw : RawError :=
  ⟨some [.s "email"], some (.pystr "Invalid email"),
   some (.pystr "value_error.email"), none⟩

/-- The document the builder produces for `sampleRaw`. -/
def sampleDoc : ValidationProblemDetails :=
  exceptGetD (build_from_pydantic_error [sampleRaw] none defaultProblemType) blankDoc

/-- Witness for C3: the `build_from_pydantic_error` clause applied to the
concrete one-failure list, its success hypothesis discharged by
evaluation. -/
theorem error_count_matches_errors_witness :
    sampleDoc.error_count = (sampleDoc.errors.length : Int) :=
  error_count_matches_errors.2 [sampleRaw] none defaultProblemType sampleDoc rfl

/-! ## Claim C4 -/

/-- A failure record whose `type` key is present but `None`. -/
def rawNullKind : RawError :=
  ⟨some [.s "x"], some (.pystr "boom"), some .pynone, none⟩

/-- A failure record whose location tuple is present but empty. -/
def rawEmptyLoc : RawError :=
  ⟨some [], some (.pystr "boom"), some (.pystr "missing"), none⟩

/-- A failure record with the `type` key absent entirely. -/
def rawNoKind : RawError := ⟨some [.s "x"], some (.pystr "m"), none, none⟩

/-- A failure record whose message is the integer `7`, not a string. -/
def rawIntMsg : RawError :=
  ⟨some [.s "x"], some (.pyint 7), some (.pystr "t"), none⟩

/-- Counterexample to C4: a present-but-`None` kind is not replaced by
"validation.error" (`dict.get` only defaults absent keys), and an empty
location yields field `""`, which `ValidationErrorDetail` rejects
(`min_length=1`, `validate_non_empty`); both calls raise. -/
theorem build_malformed_raises_cex :
    exceptIsOk (build_from_pydantic_error [rawNullKind] none defaultProblemType)
      = false ∧
    exceptIsOk (build_from_pydantic_error [rawEmptyLoc] none defaultProblemType)
      = false := by
  decide

/-- C4 as amended: the "validation.error" default applies only to an absent
kind key, and a non-string message is stringified without error; a
present-but-`None` kind raises (it is not a `str`), and an empty location
produces the empty field path, which the field-error model rejects, also
raising. -/
theorem build_malformed_fields_amended :
    (∀ e : RawError, e.ty = some PyValue.pynone →
      ∀ (inst : Option String) (pt : String),
        exceptIsOk (build_from_pydantic_error [e] inst pt) = false) ∧
    (∀ e : RawError, e.loc = some [] →
      ∀ (inst : Option String) (pt : String),
        exceptIsOk (build_from_pydantic_error [e] inst pt) = false) ∧
    (exceptGetD (build_from_pydantic_error [rawNoKind] none defaultProblemType)
        blankDoc).errors.map (fun d => d.error_type) = ["validation.error"] ∧
    exceptIsOk (build_from_pydantic_error [rawNoKind] none defaultProblemType)
      = true ∧
    (exceptGetD (build_from_pydantic_error [rawIntMsg] none defaultProblemType)
        blankDoc).errors.map (fun d => d.message) = ["7"] ∧
    exceptIsOk (build_from_pydantic_error [rawIntMsg] none defaultProblemType)
      = true := by
  refine ⟨?_, ?_, by decide, by decide, by decide, by decide⟩
  · intro e h inst pt
    simp [build_from_pydantic_error, convertAll, convertOne, h,
          ValidationErrorDetail.make, exceptIsOk]
  · intro e h inst pt
    have hck : chkLen 1 (locToJsonPointer []) 256 = false := by decide
    cases hety : e.ty.getD (.pystr "validation.error") with
    | pystr t =>
      simp [build_from_pydantic_error, convertAll, convertOne, h, hety,
            ValidationErrorDetail.make, hck, exceptIsOk]
    | pynone =>
      simp [build_from_pydantic_error, convertAll, convertOne, h, hety,
            ValidationErrorDetail.make, exceptIsOk]
    | pyint n =>
      simp [build_from_pydantic_error, convertAll, convertOne, h, hety,
            ValidationErrorDetail.make, exceptIsOk]
    | pybool b =>
      simp [build_from_pydantic_error, convertAll, convertOne, h, hety,
            ValidationErrorDetail.make, exceptIsOk]
    | pyother r =>
      simp [build_from_pydantic_error, convertAll, convertOne, h, hety,
            ValidationErrorDetail.make, exceptIsOk]

/-- Witness for the amended C4: both universally quantified clauses applied
at concrete malformed records, their hypotheses discharged by `rfl`. -/
theorem build_malformed_fields_amended_witness :
    exceptIsOk (build_from_pydantic_error [rawNullKind] none defaultProblemType)
      = false ∧
    exceptIsOk (build_from_pydantic_error [rawEmptyLoc] none defaultProblemType)
      = false :=
  ⟨build_malformed_fields_amended.1 rawNullKind rfl none defaultProblemType,
   build_malformed_fields_amended.2.1 rawEmptyLoc rfl none defaultProblemType⟩

/-! ## Claim C5 -/

/-- The constraint summary exactly as the claim words it: every allow-listed
key present in the context is formatted, with only the under-100-characters
guard — no type restriction on the value. -/
def constraintOfClaim (ctx : List (String × PyValue)) : Option String :=
  let parts := allowedConstraintKeys.filterMap fun k =>
    match ctxLookup ctx k with
    | some v =>
      if decide (strLen (pyToStr v) < 100) then some (k ++ "=" ++ pyToStr v)
      else none
    | none => none
  if parts.isEmpty then none else some (String.intercalate ", " parts)

/-- A context whose `ge` value is a float — `str()` form `"1.5"`, well under
100 characters, but not an `int` or `str`. -/
def ctxFloat : List (String × PyValue) := [("ge", PyValue.pyother "1.5")]

/-- A failure record carrying `ctxFloat` as its context. -/
def rawFloatCtx : RawError :=
  ⟨some [.s "age"], some (.pystr "too small"), some (.pystr "greater_than"),
   some ctxFloat⟩

/-- Counterexample to C5: for the context `{"ge": 1.5}` the claim requires
the summary `"ge=1.5"` (the stringified value is only 3 characters), but the
code's `isinstance(value, (int, str))` guard drops the float, so the built
field error carries no constraint at all. -/
theorem constraint_non_int_str_cex :
    constraintOf ctxFloat = none ∧
    constraintOfClaim ctxFloat = some "ge=1.5" ∧
    exceptIsOk (build_from_pydantic_error [rawFloatCtx] none defaultProblemType)
      = true ∧
    (exceptGetD (build_from_pydantic_error [rawFloatCtx] none defaultProblemType)
        blankDoc).errors.map (fun d => d.constraint) = [none] := by
  decide

/-- The claim's selection rule amended with the type guard: walk the
allow-list in order and keep a key exactly when its value is an `int`
(including `bool`) or `str` whose `str()` form is shorter than 100
characters. -/
def amendedParts (ctx : List (String × PyValue)) : List String → List String
  | [] => []
  | k :: ks =>
    match ctxLookup ctx k with
    | some v =>
      if isIntOrStr v && decide (strLen (pyToStr v) < 100)
      then (k ++ "=" ++ pyToStr v) :: amendedParts ctx ks
      else amendedParts ctx ks
    | none => amendedParts ctx ks

/-- C5 as amended, stated as a standalone selection function: keys survive
iff allow-listed, of `int`/`str` type and under 100 characters; surviving
pairs join with `", "`; an empty or fully filtered context gives `None`. -/
def specConstraintAmended (ctx : List (String × PyValue)) : Option String :=
  match ctx with
  | [] => none
  | _ :: _ =>
    match amendedParts ctx allowedConstraintKeys with
    | [] => none
    | p :: ps => some (String.intercalate ", " (p :: ps))

/-- The source's filterMap agrees with the amended selection walk on any key
list. -/
theorem constraint_filterMap_eq (ctx : List (String × PyValue)) :
    ∀ ks : List String,
      (ks.filterMap fun k =>
        match ctxLookup ctx k with
        | some v =>
          if isIntOrStr v && decide (strLen (pyToStr v) < 100)
          then some (k ++ "=" ++ pyToStr v) else none
        | none => none) = amendedParts ctx ks := by
  intro ks
  induction ks with
  | nil => rfl
  | cons k ks ih =>
    simp only [List.filterMap_cons, amendedParts]
    cases hv : ctxLookup ctx k with
    | none => simp only [hv, ih]
    | some v =>
      cases hb : (isIntOrStr v && decide (strLen (pyToStr v) < 100)) with
      | true => simp only [hv, hb, if_true, ih]
      | false => simp only [hv, hb, Bool.false_eq_true, if_false, ih]

/-- C5 amended: the constraint summary the code computes coincides with the
amended selection rule (allow-listed, `int`/`str`-typed, under 100
characters, joined with `", "`, `None` when nothing survives). -/
theorem constraintOf_eq_amended :
    ∀ ctx : List (String × PyValue), constraintOf ctx = specConstraintAmended ctx := by
  intro ctx
  cases ctx with
  | nil => rfl
  | cons p ps =>
    simp only [constraintOf, specConstraintAmended, List.isEmpty_cons,
               Bool.false_eq_true, if_false]
    rw [constraint_filterMap_eq (p :: ps) allowedConstraintKeys]
    cases hp : amendedParts (p :: ps) allowedConstraintKeys with
    | nil => simp
    | cons q qs => simp

/-! ## Claim C6 -/

/-- C6: every field error of every document `build_from_pydantic_error`
returns carries `value = None` — input values are never copied out, whatever
the failure's context holds. -/
theorem build_value_always_none :
    ∀ (F : List RawError) (inst : Option String) (pt : String)
      (d : ValidationProblemDetails),
      build_from_pydantic_error F inst pt = .ok d →
      ∀ e ∈ d.errors, e.value = none := by
  intro F inst pt d h e he
  unfold build_from_pydantic_error at h
  cases hC : convertAll F with
  | error s => rw [hC] at h; cases h
  | ok vs =>
    rw [hC] at h
    obtain ⟨herrs, _⟩ := vpd_make_ok h
    rw [herrs] at he
    exact convertAll_values F vs hC e he

/-- A failure record whose context holds a candidate value-bearing key. -/
def rawWithCtx : RawError :=
  ⟨some [.s "age"], some (.pystr "too small"),
   some (.pystr "greater_than_equal"), some [("ge", PyValue.pyint 0)]⟩

/-- The document built from `rawWithCtx`. -/
def docWithCtx : ValidationProblemDetails :=
  exceptGetD (build_from_pydantic_error [rawWithCtx] none defaultProblemType)
    blankDoc

/-- The first field error of `docWithCtx`. -/
def firstErrWithCtx : ValidationErrorDetail := docWithCtx.errors.getD 0 blankErr

/-- Witness for C6: the theorem applied to the concrete one-failure build,
success and membership discharged by evaluation. -/
theorem build_value_always_none_witness : firstErrWithCtx.value = none :=
  build_value_always_none [rawWithCtx] none defaultProblemType docWithCtx rfl
    firstErrWithCtx (by decide)

/-! ## Configuration module (configure_problem_details.py)

Enums, the `ProblemDetailsConfig` fields read by the embedded methods, the
`LegacyClientDetector` with its initial pattern tables, and the
`ProblemDetailsConfigurationManager` decision methods.  The manager's mutable
detection cache becomes explicit state threaded through `getClientTier`. -/

/-- `RolloutMode` (lines 43-51). -/
inductive RolloutMode where
  | disabled | legacy_only | hybrid | opt_in | opt_out | enabled
deriving DecidableEq, Repr

/-- `ClientTier` (lines 54-60). -/
inductive ClientTier where
  | legacy | compatible | modern | unknown
deriving DecidableEq, Repr

/-- `ResponseFormat` (lines 73-80). -/
inductive ResponseFormat where
  | rfc7807 | legacy_fastapi | simple_json | hateoas | custom
deriving DecidableEq, Repr

/-- The fields of the `ProblemDetailsConfig` dataclass (lines 274-336) that
the embedded methods (`get_client_tier`, `should_use_rfc7807`,
`choose_format`) read. -/
structure ProblemDetailsConfig where
  mode : RolloutMode
  enabled : Bool
  support_legacy : Bool
  detect_legacy_clients : Bool
  legacy_format : ResponseFormat
  respect_accept_header : Bool
  default_format : ResponseFormat
  allowed_formats : List ResponseFormat
  cache_detection : Bool
deriving DecidableEq, Repr

/-- The dataclass defaults of `ProblemDetailsConfig`. -/
def defaultConfig : ProblemDetailsConfig :=
  ⟨.hybrid, true, true, true, .legacy_fastapi, true, .rfc7807,
   [.rfc7807, .legacy_fastapi, .simple_json], true⟩

/-! ### `LegacyClientDetector` (lines 88-213) -/

/-- `legacy_user_agents` as built in `__init__` (insertion order preserved):
pattern, optional `version_max`, tier. -/
def legacyUserAgents : List (String × Option String × ClientTier) :=
  [("com.example.app", some "1.0.0", .legacy),
   ("com.mobile.app", some "2.0.0", .legacy),
   ("axios/0", none, .legacy),
   ("node-fetch/1", none, .legacy),
   ("urllib3", some "1.25.0", .legacy),
   ("IE", none, .legacy),
   ("old-client", none, .legacy)]

/-- `modern_user_agents` as built in `__init__`. -/
def modernUserAgents : List (String × ClientTier) :=
  [("axios", .compatible), ("requests", .compatible), ("httpx", .modern),
   ("curl", .compatible), ("fetch", .modern), ("RestClient", .compatible)]

/-- `rfc7807_accept_headers` key set, in insertion order. -/
def rfc7807AcceptHeaders : List String :=
  ["application/problem+json", "application/vnd.api+json", "application/ld+json"]

/-- Python `int(s)` on version components: optional surrounding whitespace,
optional sign, then digits with single underscores allowed between digits. -/
def pyDigits : List Char → Nat → Bool → Option Nat
  | [], acc, true => some acc
  | [], _, false => none
  | c :: cs, acc, lastDigit =>
    if ('0' ≤ c ∧ c ≤ '9')
    then pyDigits cs (acc * 10 + (c.toNat - 48)) true
    else if c = '_' ∧ lastDigit then pyDigits cs acc false
    else none

/-- Python `int(s)`, returning `none` where Python raises `ValueError`. -/
def pyParseInt (s : String) : Option Int :=
  match (strTrim s).toList with
  | '-' :: rest => (pyDigits rest 0 false).map (fun n => -(n : Int))
  | '+' :: rest => (pyDigits rest 0 false).map (fun n => (n : Int))
  | rest => (pyDigits rest 0 false).map (fun n => (n : Int))

/-- Lexicographic comparison of two equal-length integer lists, as Python
compares lists. -/
def compareIntLists : List Int → List Int → Int
  | a :: as_, b :: bs =>
    if a < b then -1 else if b < a then 1 else compareIntLists as_ bs
  | _, _ => 0

/-- `_compare_versions` (lines 176-193): split on `.`, parse each component,
pad the shorter list with zeros, compare; any parse failure yields 0. -/
def compareVersions (v1 v2 : String) : Int :=
  match (v1.splitOn ".").mapM pyParseInt, (v2.splitOn ".").mapM pyParseInt with
  | some p1, some p2 =>
    let m := max p1.length p2.length
    compareIntLists (p1 ++ List.replicate (m - p1.length) 0)
                    (p2 ++ List.replicate (m - p2.length) 0)
  | _, _ => 0

/-- `_is_legacy_client_id` (lines 195-199). -/
def isLegacyClientId (client_id : String) : Bool :=
  client_id == "client_old_1" || client_id == "client_legacy_2"

/-- `LegacyClientDetector.detect` (lines 126-174): Accept-header scan for
RFC 7807 media types first; then case-insensitive substring matching of the
legacy patterns (with the `version_max` refinement), then the modern
patterns; then the legacy client-id registry; `unknown` otherwise. -/
def detect (user_agent accept_header client_id api_version : Option String) :
    ClientTier :=
  if pyTruthy accept_header &&
     rfc7807AcceptHeaders.any (fun h => strContains (pyOptStr accept_header) h)
  then .modern
  else
    match
      (if pyTruthy user_agent
       then legacyUserAgents.find?
         (fun e => strContains (strLower (pyOptStr user_agent)) (strLower e.1))
       else none) with
    | some (_, vmax, tier) =>
      match vmax with
      | some vm =>
        if pyTruthy api_version &&
           decide (compareVersions (pyOptStr api_version) vm ≤ 0)
        then .legacy else tier
      | none => tier
    | none =>
      match
        (if pyTruthy user_agent
         then modernUserAgents.find?
           (fun e => strContains (strLower (pyOptStr user_agent)) (strLower e.1))
         else none) with
      | some (_, tier) => tier
      | none =>
        if pyTruthy client_id && isLegacyClientId (pyOptStr client_id)
        then .legacy else .unknown

/-! ### `ProblemDetailsConfigurationManager` (lines 452-733) -/

/-- The f-string `f"{user_agent}{accept_header}{client_id}"` that
`get_client_tier` hashes into its cache key (line 522-524): bare
concatenation of three of the four detection inputs — `api_version` is not
part of the key.  The MD5 digest is a fixed deterministic function of this
string, so the key is modelled by the string itself (digest collisions
between distinct concatenations are outside the model). -/
def concatKey (user_agent accept_header client_id : Option String) : String :=
  pyOptStr user_agent ++ pyOptStr accept_header ++ pyOptStr client_id

/-- The manager's `_client_cache` dict, most recent binding first. -/
abbrev Cache : Type := List (String × ClientTier)

/-- Dict lookup in the detection cache. -/
def lookupCache (cache : Cache) (k : String) : Option ClientTier :=
  ((cache : List (String × ClientTier)).find? (fun p => p.1 == k)).map
    (fun p => p.2)

/-- One call's four detection inputs. -/
structure CallInputs where
  ua : Option String
  acc : Option String
  cid : Option String
  ver : Option String
deriving DecidableEq, Repr

/-- `detect` on a call's own four inputs. -/
def detect4 (c : CallInputs) : ClientTier := detect c.ua c.acc c.cid c.ver

/-- The cache key of one call. -/
def keyOf (c : CallInputs) : String := concatKey c.ua c.acc c.cid

/-- `get_client_tier` (lines 499-537): modern immediately when legacy
detection is off; otherwise consult the cache (when caching is on) under the
concatenation key, falling back to `detect` and caching the result. -/
def getClientTier (cfg : ProblemDetailsConfig) (cache : Cache) (c : CallInputs) :
    ClientTier × Cache :=
  if !cfg.detect_legacy_clients then (.modern, cache)
  else
    match (if cfg.cache_detection then lookupCache cache (keyOf c) else none) with
    | some t => (t, cache)
    | none =>
      let t := detect4 c
      (t, if cfg.cache_detection then ((keyOf c, t) :: cache : List _) else cache)

/-- A sequence of `get_client_tier` calls threading the cache; returns the
tiers in call order. -/
def runTiers (cfg : ProblemDetailsConfig) : Cache → List CallInputs → List ClientTier
  | _, [] => []
  | cache, c :: rest =>
    let r := getClientTier cfg cache c
    r.1 :: runTiers cfg r.2 rest

/-- `should_use_rfc7807` (lines 539-571). -/
def shouldUseRfc7807 (cfg : ProblemDetailsConfig) (client_tier : ClientTier) :
    Bool :=
  if !cfg.enabled then false
  else
    match cfg.mode with
    | .disabled => false
    | .legacy_only => false
    | .hybrid => !(client_tier == .legacy)
    | .opt_in => client_tier == .modern
    | .opt_out => !(client_tier == .legacy)
    | .enabled => true

/-- The preference-free tail of `choose_format` (lines 573-608): an Accept
header naming `application/problem+json` forces RFC 7807 and one naming
`application/json` forces the legacy format for legacy-tier clients only;
else the rollout decision picks RFC 7807 or the configured legacy format. -/
def chooseFormatNoPref (cfg : ProblemDetailsConfig) (client_tier : ClientTier)
    (accept_header : Option String) : ResponseFormat :=
  if cfg.respect_accept_header && pyTruthy accept_header &&
     strContains (pyOptStr accept_header) "application/problem+json"
  then .rfc7807
  else if cfg.respect_accept_header && pyTruthy accept_header &&
          strContains (pyOptStr accept_header) "application/json" &&
          client_tier == .legacy
  then cfg.legacy_format
  else if shouldUseRfc7807 cfg client_tier then .rfc7807 else cfg.legacy_format

/-- `choose_format` proper: an allowed, truthy user preference short-circuits
everything else. -/
def chooseFormat (cfg : ProblemDetailsConfig) (client_tier : ClientTier)
    (accept_header : Option String) (user_preference : Option ResponseFormat) :
    ResponseFormat :=
  match user_preference with
  | some p =>
    if cfg.allowed_formats.contains p then p
    else chooseFormatNoPref cfg client_tier accept_header
  | none => chooseFormatNoPref cfg client_tier accept_header

/-! ## Claim C7 -/

/-- C7: `should_use_rfc7807` is false whenever the configuration is globally
disabled; otherwise it holds exactly when the mode is hybrid or opt-out with
a non-legacy tier, opt-in with a modern tier, or enabled outright — and for
no tier under disabled or legacy-only. -/
theorem shouldUseRfc7807_spec :
    ∀ (cfg : ProblemDetailsConfig) (tier : ClientTier),
      shouldUseRfc7807 cfg tier = true ↔
        (cfg.enabled = true ∧
          (((cfg.mode = .hybrid ∨ cfg.mode = .opt_out) ∧ tier ≠ .legacy) ∨
           (cfg.mode = .opt_in ∧ tier = .modern) ∨
           cfg.mode = .enabled)) := by
  intro cfg tier
  obtain ⟨mode, enabled, sl, dlc, lf, rah, df, af, cd⟩ := cfg
  cases enabled <;> cases mode <;> cases tier <;> simp [shouldUseRfc7807]

/-! ## Claim C8 -/

/-- The default configuration with the rollout mode forced to `enabled`. -/
def enabledModeConfig : ProblemDetailsConfig :=
  { defaultConfig with mode := .enabled }

/-- The default configuration with the rollout mode forced to
`legacy_only` (the global `enabled` flag stays at its default `True`). -/
def legacyOnlyModeConfig : ProblemDetailsConfig :=
  { defaultConfig with mode := .legacy_only }

/-- C8: with no user preference and no Accept header, at defaults: hybrid
mode gives the configured legacy format to legacy-tier clients and RFC 7807
to modern-tier clients; enabled mode gives RFC 7807 to both; legacy-only
mode gives RFC 7807 to neither. -/
theorem chooseFormat_modes_default :
    chooseFormat defaultConfig .legacy none none = defaultConfig.legacy_format ∧
    chooseFormat defaultConfig .modern none none = .rfc7807 ∧
    chooseFormat enabledModeConfig .legacy none none = .rfc7807 ∧
    chooseFormat enabledModeConfig .modern none none = .rfc7807 ∧
    chooseFormat legacyOnlyModeConfig .legacy none none ≠ .rfc7807 ∧
    chooseFormat legacyOnlyModeConfig .modern none none ≠ .rfc7807 := by
  decide

/-! ## Claim C9 -/

/-- First call of the colliding pair: user-agent "old-client" (a legacy
pattern), empty Accept header and client id. -/
def callA : CallInputs := ⟨some "old-client", some "", some "", none⟩

/-- Second call: user-agent "old-", Accept header "client" — a different
request that detects as `unknown`, yet concatenates to the same key string
"old-client". -/
def callB : CallInputs := ⟨some "old-", some "client", some "", none⟩

/-- Counterexample to C9: the cache key concatenates `user_agent`,
`accept_header` and `client_id` with no separator (and omits `api_version`),
so `callA` and `callB` share a key; with caching and legacy detection
enabled the second call returns the first call's cached `legacy` tier, while
a direct uncached `detect` on the second call's own inputs yields
`unknown`. -/
theorem client_cache_collision_cex :
    keyOf callA = keyOf callB ∧
    runTiers defaultConfig [] [callA, callB] = [.legacy, .legacy] ∧
    [callA, callB].map detect4 = [.legacy, .unknown] ∧
    runTiers defaultConfig [] [callA, callB] ≠ [callA, callB].map detect4 := by
  decide

/-- Cache lookup after one insertion. -/
theorem lookupCache_cons (k0 : String) (v0 : ClientTier) (cache : Cache)
    (k : String) :
    lookupCache ((k0, v0) :: cache) k =
      if k0 == k then some v0 else lookupCache cache k := by
  simp only [lookupCache, List.find?]
  cases h : (k0 == k) <;> simp [h]

/-- `get_client_tier` with legacy detection on, written as one case split on
the cache consultation. -/
theorem getClientTier_on (cfg : ProblemDetailsConfig) (cache : Cache)
    (c : CallInputs) (hdet : cfg.detect_legacy_clients = true) :
    getClientTier cfg cache c =
      match (if cfg.cache_detection then lookupCache cache (keyOf c) else none) with
      | some t => (t, cache)
      | none =>
        (detect4 c,
         if cfg.cache_detection then ((keyOf c, detect4 c) :: cache) else cache) := by
  unfold getClientTier
  rw [hdet]
  rfl

/-- Soundness of the threaded cache: as long as every cache binding records
the detection result of some call with that key drawn from a key-consistent
pool `L`, every call from the pool receives its own direct detection
result. -/
theorem runTiers_consistent (cfg : ProblemDetailsConfig) (L : List CallInputs)
    (hdet : cfg.detect_legacy_clients = true)
    (hcons : ∀ c ∈ L, ∀ c' ∈ L, keyOf c = keyOf c' → detect4 c = detect4 c') :
    ∀ calls : List CallInputs, (∀ c ∈ calls, c ∈ L) →
    ∀ cache : Cache,
      (∀ k v, lookupCache cache k = some v →
        ∃ c ∈ L, keyOf c = k ∧ detect4 c = v) →
      runTiers cfg cache calls = calls.map detect4 := by
  intro calls
  induction calls with
  | nil =>
    intro _ cache _
    rfl
  | cons c rest ih =>
    intro hsub cache hcache
    have hcL : c ∈ L := hsub c (List.mem_cons_self c rest)
    have hstep : runTiers cfg cache (c :: rest) =
        (getClientTier cfg cache c).1 ::
          runTiers cfg (getClientTier cfg cache c).2 rest := rfl
    rw [hstep, getClientTier_on cfg cache c hdet]
    cases hl : (if cfg.cache_detection then lookupCache cache (keyOf c) else none) with
    | some t =>
      have hlk : lookupCache cache (keyOf c) = some t := by
        cases hcd : cfg.cache_detection
        · rw [hcd] at hl
          cases hl
        · rw [hcd] at hl
          exact hl
      obtain ⟨c', hc'L, hkey, hdetv⟩ := hcache _ _ hlk
      have ht : t = detect4 c := by
        rw [← hdetv]
        exact hcons c' hc'L c hcL hkey
      simp only [List.map_cons]
      rw [ht, ih (fun x hx => hsub x (List.mem_cons_of_mem c hx)) cache hcache]
    | none =>
      simp only [List.map_cons]
      refine congrArg (detect4 c :: ·) ?_
      refine ih (fun x hx => hsub x (List.mem_cons_of_mem c hx)) _ ?_
      intro k v hkv
      cases hcd : cfg.cache_detection
      · rw [hcd] at hkv
        simp only [Bool.false_eq_true, if_false] at hkv
        exact hcache k v hkv
      · rw [hcd] at hkv
        simp only [if_true] at hkv
        rw [lookupCache_cons] at hkv
        by_cases hk : keyOf c = k
        · rw [if_pos (by exact beq_iff_eq.mpr hk)] at hkv
          cases hkv
          exact ⟨c, hcL, hk, rfl⟩
        · rw [if_neg (by simpa using hk)] at hkv
          exact hcache k v hkv

/-- C9 as amended: the detection cache is keyed by the digest of the bare
concatenation `user_agent + accept_header + client_id` (`api_version`
excluded), so transparency holds exactly up to that key: whenever all calls
of the sequence that share a concatenation key also share their direct
detection result, every `get_client_tier` call (caching on or off) returns
the same tier as a direct uncached `detect` on its own inputs. -/
theorem runTiers_transparent_of_key_consistent :
    ∀ (cfg : ProblemDetailsConfig) (calls : List CallInputs),
      cfg.detect_legacy_clients = true →
      (∀ c ∈ calls, ∀ c' ∈ calls, keyOf c = keyOf c' → detect4 c = detect4 c') →
      runTiers cfg [] calls = calls.map detect4 := by
  intro cfg calls hdet hcons
  refine runTiers_consistent cfg calls hdet hcons calls (fun c hc => hc) [] ?_
  intro k v h
  simp [lookupCache] at h

/-- A modern-detecting call used by the witness. -/
def wcallA : CallInputs := ⟨some "httpx", none, none, none⟩

/-- A compatible-detecting call used by the witness. -/
def wcallB : CallInputs := ⟨some "curl", none, none, none⟩

/-- Witness for the amended C9: a concrete collision-free two-call sequence,
both hypotheses discharged by evaluation. -/
theorem runTiers_transparent_witness :
    runTiers defaultConfig [] [wcallA, wcallB] = [wcallA, wcallB].map detect4 :=
  runTiers_transparent_of_key_consistent defaultConfig [wcallA, wcallB]
    (by decide) (by decide)

/-! ## Claim C10 -/

/-- C10: with `detect_legacy_clients = False`, `get_client_tier` returns the
modern tier for every input combination — including ones the detector would
call legacy — and leaves the cache exactly as it was, reading nothing from
it. -/
theorem getClientTier_detection_off :
    ∀ (cfg : ProblemDetailsConfig) (cache : Cache) (c : CallInputs),
      cfg.detect_legacy_clients = false →
      getClientTier cfg cache c = (.modern, cache) := by
  intro cfg cache c h
  unfold getClientTier
  rw [h]
  rfl

/-- The default configuration with legacy-client detection turned off. -/
def detectionOffConfig : ProblemDetailsConfig :=
  { defaultConfig with detect_legacy_clients := false }

/-- Witness for C10: a legacy user agent and a registered legacy client id
still yield the modern tier and an untouched cache when detection is off. -/
theorem getClientTier_detection_off_witness :
    getClientTier detectionOffConfig []
      ⟨some "old-client", none, some "client_old_1", none⟩ = (.modern, []) :=
  getClientTier_detection_off detectionOffConfig []
    ⟨some "old-client", none, some "client_old_1", none⟩ rfl
